import Mathlib

/-!
Verification of the tenant authorization and provisioning core of the
sh-finan-as-desktop repository.

The development shallowly embeds the database schema, the SQL helper
functions, the row-level-security (RLS) policies in force after replaying
every migration in the repository (the "HEAD" policy state), the
`bootstrap_user_company` provisioning function, the credential-vault
functions, and the client-side operations from the TypeScript sources that
the claims reference.

Conventions:
* UUID columns are modelled as `Nat`; `TIMESTAMPTZ` as `Nat`; `TEXT` as
  `String`; nullable columns as `Option`; `JSONB` payloads as opaque
  `String`s.
* A table is a `List` of row structures; list order models physical row
  order (insertion order), which determinises SQL `LIMIT 1` without
  `ORDER BY`.
* Each permissive RLS policy becomes one disjunct of a per-table,
  per-operation `Bool`-valued decision function; Postgres RLS allows an
  operation on a row iff some permissive policy accepts it, and denies
  everything when no policy for that operation exists.
-/

namespace ShFin

/-- The `app_role` enum from migration 20260117031809. -/
inductive AppRole where
  | admin
  | financeiro
  | leitura
deriving DecidableEq, Repr

/-- The `subscription_status` enum from migration 20260117031809. -/
inductive SubStatus where
  | ativo
  | suspenso
  | cancelado
deriving DecidableEq, Repr

/-- A row of `public.companies` (migration 20260117031809). -/
structure CompanyRow where
  id : Nat
  name : String
  document : Option String
  email : Option String
  phone : Option String
  address : Option String
deriving DecidableEq, Repr

/-- A row of `public.user_roles` (migration 20260117031809); the table-level
constraint `UNIQUE (user_id, company_id)` is modelled by
`user_roles_unique_ok` below. -/
structure UserRoleRow where
  user_id : Nat
  company_id : Nat
  role : AppRole
  created_at : Nat
deriving DecidableEq, Repr

/-- A row of `public.subscriptions` (migration 20260117031809); `company_id`
is `UNIQUE`. -/
structure SubscriptionRow where
  company_id : Nat
  plano : String
  valor : Int
  status : SubStatus
deriving DecidableEq, Repr

/-- A row of `public.transactions` (initial schema plus the financial
columns added by migration 20260114025016 and the nullable `company_id`
added by 20260117031809). Fields the claims never inspect are omitted. -/
structure TransactionRow where
  id : Nat
  user_id : Nat
  company_id : Option Nat
  description : String
  amount : Int
  profit : Option Int
  product_cost : Option Int
  tax_amount : Option Int
deriving DecidableEq, Repr

/-- A row of `public.categories` (initial schema; nullable `company_id`
added by 20260117031809). -/
structure CategoryRow where
  id : Nat
  user_id : Nat
  company_id : Option Nat
  name : String
deriving DecidableEq, Repr

/-- A row of `public.audit_log` (migration 20260117031809). -/
structure AuditRow where
  id : Nat
  company_id : Nat
  user_id : Option Nat
  action : String
  table_name : String
  record_id : Option Nat
  old_data : Option String
  new_data : Option String
deriving DecidableEq, Repr

/-- A row of `public.profiles` (initial schema; nullable `company_id` added
by 20260117031809). -/
structure ProfileRow where
  user_id : Nat
  company_id : Option Nat
  full_name : Option String
deriving DecidableEq, Repr

/-- The persisted state: the tables the authorization core touches. -/
structure DB where
  companies : List CompanyRow
  user_roles : List UserRoleRow
  subscriptions : List SubscriptionRow
  transactions : List TransactionRow
  categories : List CategoryRow
  audit_log : List AuditRow
  profiles : List ProfileRow
deriving DecidableEq, Repr

/-- SQL equality on nullable columns: `a = b` is not true when either side
is NULL. -/
def optEq (a b : Option Nat) : Bool :=
  match a, b with
  | some x, some y => x == y
  | _, _ => false

/-- `public.get_user_company_id()` (migration 20260117031809):
`SELECT company_id FROM user_roles WHERE user_id = auth.uid() LIMIT 1`,
SECURITY DEFINER. `LIMIT 1` without `ORDER BY` is determinised as the
first row in physical order. -/
def get_user_company_id (db : DB) (uid : Nat) : Option Nat :=
  ((db.user_roles.filter (fun r => r.user_id == uid)).head?).map
    (fun r => r.company_id)

/-- `public.has_role(_role)` (migration 20260117031809): true iff the
current user has the given role in ANY company (the check is not scoped
to a company). -/
def has_role (db : DB) (uid : Nat) (r : AppRole) : Bool :=
  db.user_roles.any (fun x => x.user_id == uid && x.role == r)

/-- `public.is_company_member(_company_id)` (migration 20260117031809). -/
def is_company_member (db : DB) (uid c : Nat) : Bool :=
  db.user_roles.any (fun x => x.user_id == uid && x.company_id == c)

/-- `public.is_company_admin(_company_id)` (migration 20260117031809). -/
def is_company_admin (db : DB) (uid c : Nat) : Bool :=
  db.user_roles.any
    (fun x => x.user_id == uid && x.company_id == c && x.role == AppRole.admin)

/-- `public.is_subscription_active(_company_id)` (migration
20260117031809). -/
def is_subscription_active (db : DB) (c : Nat) : Bool :=
  db.subscriptions.any
    (fun s => s.company_id == c && s.status == SubStatus.ativo)

/-- `is_subscription_active` applied to a nullable `company_id` column: a
NULL argument matches no subscription row. -/
def is_subscription_active_opt (db : DB) (c : Option Nat) : Bool :=
  match c with
  | some cid => is_subscription_active db cid
  | none => false

/-! ### RLS policies at HEAD

Each function is the disjunction of the permissive policies left standing
for that table and operation after replaying every migration document in
the repository. -/

/-- Legacy policy "Users can manage their own transactions"
(`FOR ALL USING (auth.uid() = user_id)`, initial schema). The later
migration 20260117031809 drops four per-operation policy names
("Users can view/create/update/delete their own transactions") that do not
match this one, so it is still in force at HEAD; the Spreadsheet page even
relies on it, inserting rows without a `company_id`. For a `FOR ALL`
policy without `WITH CHECK`, the `USING` clause also gates new rows. -/
def transactions_owner_policy (uid : Nat) (t : TransactionRow) : Bool :=
  t.user_id == uid

/-- "Company members can view transactions" as recreated by migration
20260204033131: `company_id = get_user_company_id() AND
is_subscription_active(company_id)` (no role restriction). -/
def transactions_company_read (db : DB) (uid : Nat) (t : TransactionRow) : Bool :=
  optEq t.company_id (get_user_company_id db uid) &&
    is_subscription_active_opt db t.company_id

/-- SELECT on `transactions`: legacy owner policy OR the company policy. -/
def transactions_select_policy (db : DB) (uid : Nat) (t : TransactionRow) : Bool :=
  transactions_owner_policy uid t || transactions_company_read db uid t

/-- INSERT on `transactions`: legacy owner policy OR "Company members can
create transactions" (migration 20260117031809): member company, active
subscription, role admin or financeiro. -/
def transactions_insert_policy (db : DB) (uid : Nat) (t : TransactionRow) : Bool :=
  transactions_owner_policy uid t ||
    (optEq t.company_id (get_user_company_id db uid) &&
      is_subscription_active_opt db t.company_id &&
      (has_role db uid AppRole.admin || has_role db uid AppRole.financeiro))

/-- UPDATE on `transactions`: legacy owner policy OR "Company members can
update transactions" (migration 20260117031809). -/
def transactions_update_policy (db : DB) (uid : Nat) (t : TransactionRow) : Bool :=
  transactions_owner_policy uid t ||
    (optEq t.company_id (get_user_company_id db uid) &&
      is_subscription_active_opt db t.company_id &&
      (has_role db uid AppRole.admin || has_role db uid AppRole.financeiro))

/-- DELETE on `transactions`: legacy owner policy OR "Company admins can
delete transactions" (migration 20260117031809). -/
def transactions_delete_policy (db : DB) (uid : Nat) (t : TransactionRow) : Bool :=
  transactions_owner_policy uid t ||
    (optEq t.company_id (get_user_company_id db uid) &&
      is_subscription_active_opt db t.company_id &&
      has_role db uid AppRole.admin)

/-- Legacy policy "Users can manage their own categories" (`FOR ALL USING
(auth.uid() = user_id)`, initial schema, never dropped). -/
def categories_owner_policy (uid : Nat) (c : CategoryRow) : Bool :=
  c.user_id == uid

/-- SELECT on `categories`: legacy owner policy OR "Company members can
view categories" (migration 20260117031809), OR the `USING` clause of the
"manage" `FOR ALL` policy. -/
def categories_select_policy (db : DB) (uid : Nat) (c : CategoryRow) : Bool :=
  categories_owner_policy uid c ||
    optEq c.company_id (get_user_company_id db uid) ||
    (optEq c.company_id (get_user_company_id db uid) &&
      (has_role db uid AppRole.admin || has_role db uid AppRole.financeiro))

/-- INSERT/UPDATE/DELETE on `categories`: legacy owner policy OR "Company
members can manage categories" (migration 20260117031809):
`company_id = get_user_company_id() AND (has_role(admin) OR
has_role(financeiro))`. Note: no subscription-status conjunct. -/
def categories_manage_policy (db : DB) (uid : Nat) (c : CategoryRow) : Bool :=
  categories_owner_policy uid c ||
    (optEq c.company_id (get_user_company_id db uid) &&
      (has_role db uid AppRole.admin || has_role db uid AppRole.financeiro))

/-- SELECT on `user_roles`: "Users can view roles in their company" OR
"Users can view their own role" (migration 20260119130325) OR the `USING`
clause of the admin `FOR ALL` policy. -/
def user_roles_select_policy (db : DB) (uid : Nat) (r : UserRoleRow) : Bool :=
  is_company_member db uid r.company_id || r.user_id == uid ||
    is_company_admin db uid r.company_id

/-- INSERT/UPDATE/DELETE on `user_roles`: only "Admins can manage roles in
their company" remains ("Users can insert their own initial role" was
dropped by migration 20260204032157). -/
def user_roles_write_policy (db : DB) (uid : Nat) (r : UserRoleRow) : Bool :=
  is_company_admin db uid r.company_id

/-- SELECT on `subscriptions`: "Users can view their company subscription"
(migration 20260119130325). -/
def subscriptions_select_policy (db : DB) (uid : Nat) (s : SubscriptionRow) : Bool :=
  is_company_member db uid s.company_id

/-- INSERT on `subscriptions`: "Users can create subscription for their
company" as last recreated by migration 20260202022738: a role row of any
kind for the new row's company must exist for the current user
(membership, with no role restriction). -/
def subscriptions_insert_policy (db : DB) (uid : Nat) (s : SubscriptionRow) : Bool :=
  db.user_roles.any (fun r =>
    r.company_id == s.company_id && r.user_id == uid)

/-- UPDATE on `subscriptions`: "Admins can update subscription" (migration
20260119130325). -/
def subscriptions_update_policy (db : DB) (uid : Nat) (s : SubscriptionRow) : Bool :=
  is_company_admin db uid s.company_id

/-- DELETE on `subscriptions`: "Admins can delete subscriptions" (migration
20260204032508). -/
def subscriptions_delete_policy (db : DB) (uid : Nat) (s : SubscriptionRow) : Bool :=
  is_company_admin db uid s.company_id

/-- SELECT on `companies`: "Users can view their company" (migration
20260202022738, an EXISTS over `user_roles`). -/
def companies_select_policy (db : DB) (uid : Nat) (c : CompanyRow) : Bool :=
  db.user_roles.any (fun r => r.company_id == c.id && r.user_id == uid)

/-- UPDATE on `companies`: "Admins can update their company" (migration
20260202022738). -/
def companies_update_policy (db : DB) (uid : Nat) (c : CompanyRow) : Bool :=
  db.user_roles.any (fun r =>
    r.company_id == c.id && r.user_id == uid && r.role == AppRole.admin)

/-- INSERT on `companies`: "New users can create first company" (migration
20260204032157): the current user must have no role row at all. -/
def companies_insert_policy (db : DB) (uid : Nat) : Bool :=
  !(db.user_roles.any (fun r => r.user_id == uid))

/-- DELETE on `companies`: "Admins can delete their company" (migration
20260204032508). -/
def companies_delete_policy (db : DB) (uid : Nat) (c : CompanyRow) : Bool :=
  db.user_roles.any (fun r =>
    r.company_id == c.id && r.user_id == uid && r.role == AppRole.admin)

/-- SELECT on `audit_log`: "Admins can view audit logs of their company"
(migration 20260204032508): member AND active subscription AND
has_role(admin). -/
def audit_select_policy (db : DB) (uid : Nat) (a : AuditRow) : Bool :=
  is_company_member db uid a.company_id &&
    is_subscription_active db a.company_id &&
    has_role db uid AppRole.admin

/-- INSERT on `audit_log` from a client: "System can insert audit logs" was
dropped by migration 20260204032157 and no INSERT policy remains, so every
client insert is denied (absence of policy = deny). -/
def audit_insert_policy (_db : DB) (_uid : Nat) (_a : AuditRow) : Bool :=
  false

/-- UPDATE on `audit_log`: no policy ever existed (the unnamed hardening
migration drops any and creates none: absence of policy = deny). -/
def audit_update_policy (_db : DB) (_uid : Nat) (_a : AuditRow) : Bool :=
  false

/-- DELETE on `audit_log`: no policy exists (absence of policy = deny). -/
def audit_delete_policy (_db : DB) (_uid : Nat) (_a : AuditRow) : Bool :=
  false

/-! ### Read paths for transactions -/

/-- The RLS-gated direct read of `public.transactions`: the rows the
current user can SELECT from the base table. -/
def select_transactions (db : DB) (uid : Nat) : List TransactionRow :=
  db.transactions.filter (transactions_select_policy db uid)

/-- The field masking of the `transactions_safe` view (recreated with
`security_invoker` by the unnamed migration): `profit`, `product_cost`
and `tax_amount` are NULL unless `has_role(admin) OR has_role(financeiro)`.
-/
def mask_transaction (db : DB) (uid : Nat) (t : TransactionRow) : TransactionRow :=
  if has_role db uid AppRole.admin || has_role db uid AppRole.financeiro then
    t
  else
    { t with profit := none, product_cost := none, tax_amount := none }

/-- The `transactions_safe` view: with `security_invoker = true` the base
table RLS applies to the reader, then the CASE expressions mask the
sensitive columns. -/
def transactions_safe (db : DB) (uid : Nat) : List TransactionRow :=
  (select_transactions db uid).map (mask_transaction db uid)

/-! ### Credential Vault (migration 20260204033131)

`encrypt_api_credential` / `decrypt_api_credential` wrap the external
pgcrypto primitives (`digest`, `encrypt`, `decrypt` with AES plus base64
coding). The pgcrypto layer is not repository code; it is modelled here as
an ideal symmetric cipher over byte sequences: the ciphertext carries the
key it was produced with, and decryption with any other key fails (which
the plpgsql exception handler converts to NULL). Plaintexts and
ciphertexts are byte sequences (`List Nat`); NULL text is `none`. -/

/-- Key derivation `digest(p_user_id::text || secret-constant, sha256)`:
an injective function of the user id, modelled as the identity. -/
def deriveKey (uid : Nat) : Nat :=
  uid

/-- Ideal-cipher model of `encrypt(data, key, aes)`: tag the payload with
the key. -/
def pgEncrypt (key : Nat) (pt : List Nat) : List Nat :=
  key :: pt

/-- Ideal-cipher model of `decrypt(data, key, aes)`: succeeds only on a
ciphertext produced with the same key; any failure is an SQL error, which
the caller's exception handler maps to `none`. -/
def pgDecrypt (key : Nat) (ct : List Nat) : Option (List Nat) :=
  match ct with
  | [] => none
  | k :: rest => if k == key then some rest else none

/-- `public.encrypt_api_credential(p_plaintext, p_user_id)`: NULL or empty
plaintext maps to NULL, otherwise AES under the key derived from the user
id. -/
def encrypt_api_credential (pt : Option (List Nat)) (uid : Nat) : Option (List Nat) :=
  match pt with
  | none => none
  | some [] => none
  | some l => some (pgEncrypt (deriveKey uid) l)

/-- `public.decrypt_api_credential(p_ciphertext, p_user_id)`: NULL or empty
ciphertext maps to NULL; decryption failure is caught by the
`EXCEPTION WHEN OTHERS` handler and returned as NULL. -/
def decrypt_api_credential (ct : Option (List Nat)) (uid : Nat) : Option (List Nat) :=
  match ct with
  | none => none
  | some [] => none
  | some l => pgDecrypt (deriveKey uid) l

/-! ### Store-level constraints and inserts (DDL of migration
20260117031809) -/

/-- The key of the `UNIQUE (user_id, company_id)` constraint on
`user_roles`. -/
def roleKey (r : UserRoleRow) : Nat × Nat :=
  (r.user_id, r.company_id)

/-- A `user_roles` table state satisfies the store constraint iff no two
rows share the `(user_id, company_id)` pair. -/
def user_roles_unique_ok (rows : List UserRoleRow) : Prop :=
  (rows.map roleKey).Nodup

instance (rows : List UserRoleRow) : Decidable (user_roles_unique_ok rows) :=
  inferInstanceAs (Decidable ((rows.map roleKey).Nodup))

/-- Store errors surfaced to plpgsql. -/
inductive SqlError where
  | uniqueViolation
deriving DecidableEq, Repr

/-- INSERT into `user_roles`: rejected with a unique violation iff some
existing row already carries the same `(user_id, company_id)` pair. -/
def insert_user_role (rows : List UserRoleRow) (r : UserRoleRow) :
    Except SqlError (List UserRoleRow) :=
  if rows.any (fun x => x.user_id == r.user_id && x.company_id == r.company_id) then
    Except.error SqlError.uniqueViolation
  else
    Except.ok (rows ++ [r])

/-- INSERT into `subscriptions`: `company_id` is `UNIQUE`. -/
def insert_subscription (rows : List SubscriptionRow) (s : SubscriptionRow) :
    Except SqlError (List SubscriptionRow) :=
  if rows.any (fun x => x.company_id == s.company_id) then
    Except.error SqlError.uniqueViolation
  else
    Except.ok (rows ++ [s])

/-! ### bootstrap_user_company (src/unnamed/part_014) -/

/-- The named arguments of `bootstrap_user_company`. -/
structure BootstrapInput where
  company_name : String
  company_document : String
  company_email : Option String
  company_phone : Option String
  company_address : Option String
  profile_full_name : Option String
deriving DecidableEq, Repr

/-- One comparison step of the minimum-`created_at` computation. -/
def minStep (r : UserRoleRow) (o : Option UserRoleRow) : Option UserRoleRow :=
  match o with
  | none => some r
  | some b => if r.created_at ≤ b.created_at then some r else some b

/-- `SELECT company_id FROM user_roles WHERE user_id = auth.uid() ORDER BY
created_at ASC LIMIT 1`: the minimum-`created_at` row among the caller's
role rows (ties resolved to the earlier row in physical order). -/
def minByCreated : List UserRoleRow → Option UserRoleRow
  | [] => none
  | r :: rest => minStep r (minByCreated rest)

/-- The caller's oldest role row, per the query at the top of
`bootstrap_user_company`. -/
def oldestRoleOf (db : DB) (uid : Nat) : Option UserRoleRow :=
  minByCreated (db.user_roles.filter (fun r => r.user_id == uid))

/-- The write phase of `bootstrap_user_company` (everything after the
role-existence check): insert company, admin role, active free
subscription, then upsert the profile. The function body declares no
`EXCEPTION` handler, so a store error from any insert propagates and the
enclosing transaction rolls back (modelled by returning the error and
discarding the partial state). `newCompanyId` stands for the fresh
`gen_random_uuid()`; `now` for `now()`. Run against a store in which a
concurrent transaction committed after the check, this is exactly the
racing write the spec discusses. -/
def bootstrap_writes (db : DB) (uid : Nat) (inp : BootstrapInput)
    (newCompanyId now : Nat) : Except SqlError (DB × Nat) :=
  let db1 : DB :=
    { db with companies := db.companies ++
        [{ id := newCompanyId, name := inp.company_name,
           document := some inp.company_document, email := inp.company_email,
           phone := inp.company_phone, address := inp.company_address }] }
  match insert_user_role db1.user_roles
      { user_id := uid, company_id := newCompanyId, role := AppRole.admin,
        created_at := now } with
  | Except.error e => Except.error e
  | Except.ok urs =>
    let db2 : DB := { db1 with user_roles := urs }
    match insert_subscription db2.subscriptions
        { company_id := newCompanyId, plano := "Plano SH Completo", valor := 0,
          status := SubStatus.ativo } with
    | Except.error e => Except.error e
    | Except.ok subs =>
      let db3 : DB := { db2 with subscriptions := subs }
      let db4 : DB :=
        if db3.profiles.any (fun p => p.user_id == uid) then
          { db3 with profiles := db3.profiles.map (fun p =>
              if p.user_id == uid then
                { p with company_id := some newCompanyId,
                         full_name := p.full_name.orElse
                           (fun _ => inp.profile_full_name) }
              else p) }
        else
          { db3 with profiles := db3.profiles ++
              [{ user_id := uid, company_id := some newCompanyId,
                 full_name := inp.profile_full_name }] }
      Except.ok (db4, newCompanyId)

/-- `public.bootstrap_user_company` (src/unnamed/part_014): if the caller
already has a role row, return that company id unchanged (idempotent
early return); otherwise perform the provisioning writes. -/
def bootstrap_user_company (db : DB) (uid : Nat) (inp : BootstrapInput)
    (newCompanyId now : Nat) : Except SqlError (DB × Nat) :=
  match oldestRoleOf db uid with
  | some r => Except.ok (db, r.company_id)
  | none => bootstrap_writes db uid inp newCompanyId now

/-! ### RLS-gated store mutations

Postgres applies the relevant policy row by row against the pre-statement
state: an UPDATE touches only rows its `USING` clause accepts, a DELETE
removes only rows its `USING` clause accepts, and rows that fail the
clause are silently left alone. -/

/-- RLS-gated UPDATE on `user_roles`: apply `f` to the rows matched by the
client's WHERE predicate that the write policy accepts. -/
def rls_update_user_roles (db : DB) (uid : Nat) (pred : UserRoleRow → Bool)
    (f : UserRoleRow → UserRoleRow) : DB :=
  { db with user_roles := db.user_roles.map (fun r =>
      if pred r && user_roles_write_policy db uid r then f r else r) }

/-- RLS-gated DELETE on `user_roles`. -/
def rls_delete_user_roles (db : DB) (uid : Nat) (pred : UserRoleRow → Bool) : DB :=
  { db with user_roles := db.user_roles.filter (fun r =>
      !(pred r && user_roles_write_policy db uid r)) }

/-- RLS-gated UPDATE on `audit_log` (no permissive policy exists, so this
is always a no-op). -/
def rls_update_audit (db : DB) (uid : Nat) (pred : AuditRow → Bool)
    (f : AuditRow → AuditRow) : DB :=
  { db with audit_log := db.audit_log.map (fun a =>
      if pred a && audit_update_policy db uid a then f a else a) }

/-- RLS-gated DELETE on `audit_log` (no permissive policy exists). -/
def rls_delete_audit (db : DB) (uid : Nat) (pred : AuditRow → Bool) : DB :=
  { db with audit_log := db.audit_log.filter (fun a =>
      !(pred a && audit_delete_policy db uid a)) }

/-- The RLS-gated read of `audit_log` (the Audit Ledger query path). -/
def query_audit (db : DB) (uid : Nat) : List AuditRow :=
  db.audit_log.filter (audit_select_policy db uid)

/-- The `ON DELETE CASCADE` / `ON DELETE SET NULL` effects declared on the
foreign keys referencing `companies` (DDL of migration 20260117031809):
deleting a company removes its role, subscription, transaction, category
and audit rows and nulls `profiles.company_id`. -/
def cascade_delete_company (db : DB) (cid : Nat) : DB :=
  { companies := db.companies.filter (fun c => !(c.id == cid)),
    user_roles := db.user_roles.filter (fun r => !(r.company_id == cid)),
    subscriptions := db.subscriptions.filter (fun s => !(s.company_id == cid)),
    transactions := db.transactions.filter (fun t => !(optEq t.company_id (some cid))),
    categories := db.categories.filter (fun c => !(optEq c.company_id (some cid))),
    audit_log := db.audit_log.filter (fun a => !(a.company_id == cid)),
    profiles := db.profiles.map (fun p =>
      if optEq p.company_id (some cid) then { p with company_id := none } else p) }

/-- RLS-gated DELETE of one company row: permitted by "Admins can delete
their company", then the declared cascades fire. -/
def rls_delete_company (db : DB) (uid cid : Nat) : DB :=
  match db.companies.find? (fun c => c.id == cid) with
  | none => db
  | some c =>
    if companies_delete_policy db uid c then cascade_delete_company db cid else db

/-! ### Client-side operations from the TypeScript sources -/

/-- `logAction` from `useAudit` (src/unnamed/part_000): a standalone client
INSERT into `audit_log` issued after the fact; when either context value
is missing it silently returns, and any insert error is caught and only
written to the console, so no failure ever propagates to the mutation it
documents. At HEAD no INSERT policy on `audit_log` exists, so the insert
itself is always denied. -/
def logAction (db : DB) (userOpt companyOpt : Option Nat) (auditId : Nat)
    (act tbl : String) (recordId : Option Nat) : DB :=
  match userOpt, companyOpt with
  | some uid, some cid =>
    let row : AuditRow :=
      { id := auditId, company_id := cid, user_id := some uid, action := act,
        table_name := tbl, record_id := recordId, old_data := none,
        new_data := none }
    if audit_insert_policy db uid row then
      { db with audit_log := db.audit_log ++ [row] }
    else
      db
  | _, _ => db

/-- `public.log_audit_event` (migration 20260204032157): SECURITY DEFINER,
so it bypasses RLS; returns NULL without writing when the caller has no
company. It is defined in the schema but no client code path invokes it. -/
def log_audit_event (db : DB) (uid auditId : Nat) (tbl act : String)
    (recordId : Option Nat) (oldData newData : Option String) : DB × Option Nat :=
  match get_user_company_id db uid with
  | none => (db, none)
  | some cid =>
    ({ db with audit_log := db.audit_log ++
        [{ id := auditId, company_id := cid, user_id := some uid, action := act,
           table_name := tbl, record_id := recordId, old_data := oldData,
           new_data := newData }] }, some auditId)

/-- `handleAddRow` from `Spreadsheet.tsx`: inserts a transaction carrying
only the user id (no `company_id`), gated by the INSERT RLS; no audit
write occurs anywhere in the flow. -/
def handleAddRow (db : DB) (uid newId : Nat) : DB :=
  let t : TransactionRow :=
    { id := newId, user_id := uid, company_id := none,
      description := "Nova transacao", amount := 0, profit := some 0,
      product_cost := some 0, tax_amount := some 0 }
  if transactions_insert_policy db uid t then
    { db with transactions := db.transactions ++ [t] }
  else
    db

/-- The caller's context row in `useCompany`: the role row fetched by
`.eq(user_id, user.id).maybeSingle()`. -/
def callerRole (db : DB) (uid : Nat) : Option UserRoleRow :=
  (db.user_roles.filter (fun r => r.user_id == uid)).head?

/-- `handleUpdateUserRole` from the team-management page
(src/unnamed/part_008): guarded only by `isAdmin && company`; issues an
UPDATE of `user_roles` for the target user in the caller's company. There
is no self-target or last-admin check. -/
def handleUpdateUserRole (db : DB) (caller target : Nat) (newRole : AppRole) : DB :=
  match callerRole db caller with
  | none => db
  | some cr =>
    if cr.role == AppRole.admin then
      rls_update_user_roles db caller
        (fun r => r.user_id == target && r.company_id == cr.company_id)
        (fun r => { r with role := newRole })
    else
      db

/-- `handleRemoveUser` from the team-management page
(src/unnamed/part_008): guarded by `isAdmin && company`, and returns
early with an error toast when the target is the caller themselves;
otherwise issues a DELETE of the target's role row in the caller's
company. -/
def handleRemoveUser (db : DB) (caller target : Nat) : DB :=
  match callerRole db caller with
  | none => db
  | some cr =>
    if !(cr.role == AppRole.admin) then
      db
    else if target == caller then
      db
    else
      rls_delete_user_roles db caller
        (fun r => r.user_id == target && r.company_id == cr.company_id)

/-- The number of admin role rows of a company. -/
def admin_count (db : DB) (cid : Nat) : Nat :=
  (db.user_roles.filter (fun r =>
    r.company_id == cid && r.role == AppRole.admin)).length

/-! ### Concrete states used by counterexamples and witnesses -/

/-- An empty store. -/
def dbEmpty : DB :=
  { companies := [], user_roles := [], subscriptions := [], transactions := [],
    categories := [], audit_log := [], profiles := [] }

/-- Two provisioned tenants: user 1 is admin of company 1 only, user 2 is
admin of company 2 only, both subscriptions active. -/
def dbIso : DB :=
  { companies :=
      [{ id := 1, name := "A", document := none, email := none, phone := none,
         address := none },
       { id := 2, name := "B", document := none, email := none, phone := none,
         address := none }],
    user_roles :=
      [{ user_id := 1, company_id := 1, role := AppRole.admin, created_at := 0 },
       { user_id := 2, company_id := 2, role := AppRole.admin, created_at := 0 }],
    subscriptions :=
      [{ company_id := 1, plano := "p", valor := 0, status := SubStatus.ativo },
       { company_id := 2, plano := "p", valor := 0, status := SubStatus.ativo }],
    transactions := [], categories := [], audit_log := [], profiles := [] }

/-- A transaction row tagged with company 2 but carrying user 1's id. -/
def txIntoB : TransactionRow :=
  { id := 10, user_id := 1, company_id := some 2, description := "x",
    amount := 0, profit := none, product_cost := none, tax_amount := none }

/-- A category row tagged with company 2 but carrying user 1's id. -/
def catIntoB : CategoryRow :=
  { id := 11, user_id := 1, company_id := some 2, name := "x" }

/-- A provisioned principal: user 1 is admin of company 1. -/
def dbBoot : DB :=
  { companies :=
      [{ id := 1, name := "A", document := none, email := none, phone := none,
         address := none }],
    user_roles :=
      [{ user_id := 1, company_id := 1, role := AppRole.admin, created_at := 0 }],
    subscriptions :=
      [{ company_id := 1, plano := "p", valor := 0, status := SubStatus.ativo }],
    transactions := [], categories := [], audit_log := [], profiles := [] }

/-- A first home role row for user 1 in company 1. -/
def role11 : UserRoleRow :=
  { user_id := 1, company_id := 1, role := AppRole.admin, created_at := 0 }

/-- A second home role row for the same user 1 in a different company 2. -/
def role12 : UserRoleRow :=
  { user_id := 1, company_id := 2, role := AppRole.admin, created_at := 1 }

/-- The store state seen by the write phase of a bootstrap call for user 1
after a concurrent transaction already committed the role
(user 1, company 5). -/
def dbRace : DB :=
  { companies :=
      [{ id := 5, name := "A", document := none, email := none, phone := none,
         address := none }],
    user_roles :=
      [{ user_id := 1, company_id := 5, role := AppRole.admin, created_at := 0 }],
    subscriptions := [], transactions := [], categories := [], audit_log := [],
    profiles := [] }

/-- A sample bootstrap input. -/
def inpAcme : BootstrapInput :=
  { company_name := "Acme", company_document := "doc", company_email := none,
    company_phone := none, company_address := none, profile_full_name := none }

/-- Company 1 with its sole admin (user 1) and one leitura member
(user 2); subscription active. -/
def dbSolo : DB :=
  { companies :=
      [{ id := 1, name := "A", document := none, email := none, phone := none,
         address := none }],
    user_roles :=
      [{ user_id := 1, company_id := 1, role := AppRole.admin, created_at := 0 },
       { user_id := 2, company_id := 1, role := AppRole.leitura, created_at := 1 }],
    subscriptions :=
      [{ company_id := 1, plano := "p", valor := 0, status := SubStatus.ativo }],
    transactions := [], categories := [], audit_log := [], profiles := [] }

/-- Company 1 suspended, user 1 its admin, one category row of company 1. -/
def dbGate : DB :=
  { companies :=
      [{ id := 1, name := "A", document := none, email := none, phone := none,
         address := none }],
    user_roles :=
      [{ user_id := 1, company_id := 1, role := AppRole.admin, created_at := 0 }],
    subscriptions :=
      [{ company_id := 1, plano := "p", valor := 0, status := SubStatus.suspenso }],
    transactions := [], categories :=
      [{ id := 1, user_id := 1, company_id := some 1, name := "food" }],
    audit_log := [], profiles := [] }

/-- A transaction row of the suspended company 1 authored by some other
user 9. -/
def txGate : TransactionRow :=
  { id := 20, user_id := 9, company_id := some 1, description := "g",
    amount := 1, profit := none, product_cost := none, tax_amount := none }

/-- The suspended subscription row of company 1 in `dbGate`. -/
def subGate : SubscriptionRow :=
  { company_id := 1, plano := "p", valor := 0, status := SubStatus.suspenso }

/-- The category row of company 1 in `dbGate`. -/
def catGate : CategoryRow :=
  { id := 1, user_id := 1, company_id := some 1, name := "food" }

/-- Company 1 active; user 1 is a leitura member, user 2 a financeiro
member who authored a transaction with a non-null profit. -/
def dbMask : DB :=
  { companies :=
      [{ id := 1, name := "A", document := none, email := none, phone := none,
         address := none }],
    user_roles :=
      [{ user_id := 1, company_id := 1, role := AppRole.leitura, created_at := 0 },
       { user_id := 2, company_id := 1, role := AppRole.financeiro, created_at := 0 }],
    subscriptions :=
      [{ company_id := 1, plano := "p", valor := 0, status := SubStatus.ativo }],
    transactions :=
      [{ id := 10, user_id := 2, company_id := some 1, description := "v",
         amount := 50, profit := some 100, product_cost := some 30,
         tax_amount := some 5 }],
    categories := [], audit_log := [], profiles := [] }

/-- Company 1 active with admin user 1 and one audit record. -/
def dbLedger : DB :=
  { companies :=
      [{ id := 1, name := "A", document := none, email := none, phone := none,
         address := none }],
    user_roles :=
      [{ user_id := 1, company_id := 1, role := AppRole.admin, created_at := 0 }],
    subscriptions :=
      [{ company_id := 1, plano := "p", valor := 0, status := SubStatus.ativo }],
    transactions := [], categories := [],
    audit_log :=
      [{ id := 100, company_id := 1, user_id := some 1, action := "create",
         table_name := "transactions", record_id := some 5, old_data := none,
         new_data := none }],
    profiles := [] }

/-! ### Helper lemmas -/

lemma minStep_isSome (r : UserRoleRow) (o : Option UserRoleRow) :
    ∃ b, minStep r o = some b := by
  cases o with
  | none => exact ⟨r, rfl⟩
  | some b =>
    simp only [minStep]
    by_cases hle : r.created_at ≤ b.created_at
    · exact ⟨r, by rw [if_pos hle]⟩
    · exact ⟨b, by rw [if_neg hle]⟩

lemma minByCreated_mem {l : List UserRoleRow} :
    ∀ {r : UserRoleRow}, minByCreated l = some r → r ∈ l := by
  induction l with
  | nil => intro r h; simp [minByCreated] at h
  | cons a rest ih =>
    intro r h
    rw [minByCreated] at h
    cases hm : minByCreated rest with
    | none =>
      rw [hm] at h
      simp only [minStep] at h
      obtain rfl := Option.some.inj h
      exact List.mem_cons_self _ _
    | some b =>
      rw [hm] at h
      simp only [minStep] at h
      by_cases hle : a.created_at ≤ b.created_at
      · rw [if_pos hle] at h
        obtain rfl := Option.some.inj h
        exact List.mem_cons_self _ _
      · rw [if_neg hle] at h
        obtain rfl := Option.some.inj h
        exact List.mem_cons_of_mem a (ih hm)

lemma minByCreated_le {l : List UserRoleRow} :
    ∀ {r : UserRoleRow}, minByCreated l = some r →
      ∀ x ∈ l, r.created_at ≤ x.created_at := by
  induction l with
  | nil => intro r h; simp [minByCreated] at h
  | cons a rest ih =>
    intro r h
    rw [minByCreated] at h
    cases hm : minByCreated rest with
    | none =>
      rw [hm] at h
      simp only [minStep] at h
      obtain rfl := Option.some.inj h
      intro x hx
      rcases List.mem_cons.mp hx with hxa | hxr
      · exact hxa ▸ Nat.le_refl _
      · cases rest with
        | nil => simp at hxr
        | cons c d =>
          exfalso
          rw [minByCreated] at hm
          obtain ⟨b, hb⟩ := minStep_isSome c (minByCreated d)
          rw [hb] at hm
          cases hm
    | some b =>
      rw [hm] at h
      simp only [minStep] at h
      by_cases hle : a.created_at ≤ b.created_at
      · rw [if_pos hle] at h
        obtain rfl := Option.some.inj h
        intro x hx
        rcases List.mem_cons.mp hx with hxa | hxr
        · exact hxa ▸ Nat.le_refl _
        · exact Nat.le_trans hle (ih hm x hxr)
      · rw [if_neg hle] at h
        obtain rfl := Option.some.inj h
        intro x hx
        rcases List.mem_cons.mp hx with hxa | hxr
        · exact hxa ▸ Nat.le_of_lt (Nat.lt_of_not_le hle)
        · exact ih hm x hxr

lemma minByCreated_of_ne_nil {l : List UserRoleRow} (h : l ≠ []) :
    ∃ r, minByCreated l = some r := by
  cases l with
  | nil => exact absurd rfl h
  | cons a rest =>
    rw [minByCreated]
    exact minStep_isSome a (minByCreated rest)

/-! ### C2 — bootstrap idempotence for an already-provisioned principal -/

/-- C2: if the principal already has a RoleAssignment, every call to
`bootstrap_user_company` — with any input, any fresh id and any clock —
leaves the store untouched and returns the company id of the principal's
oldest role row, so all further calls return that same id. -/
theorem bootstrap_idempotent_when_provisioned (db : DB) (uid : Nat)
    (h : db.user_roles.filter (fun r => r.user_id == uid) ≠ []) :
    ∃ r, oldestRoleOf db uid = some r ∧ r.user_id = uid ∧ r ∈ db.user_roles ∧
      (∀ x ∈ db.user_roles, x.user_id = uid → r.created_at ≤ x.created_at) ∧
      ∀ inp cid now,
        bootstrap_user_company db uid inp cid now = Except.ok (db, r.company_id) := by
  obtain ⟨r, hr⟩ := minByCreated_of_ne_nil h
  have hmem := minByCreated_mem hr
  have ⟨hmem', hpred⟩ := List.mem_filter.mp hmem
  refine ⟨r, hr, by simpa using hpred, hmem', ?_, ?_⟩
  · intro x hx hux
    exact minByCreated_le hr x
      (List.mem_filter.mpr ⟨hx, by simpa using hux⟩)
  · intro inp cid now
    unfold bootstrap_user_company
    rw [show oldestRoleOf db uid = some r from hr]

/-- Witness for C2 at a provisioned store. -/
theorem bootstrap_idempotent_when_provisioned_witness :
    bootstrap_user_company dbBoot 1 inpAcme 9 9 = Except.ok (dbBoot, 1) := by
  obtain ⟨r, hr, -, -, -, hcall⟩ :=
    bootstrap_idempotent_when_provisioned dbBoot 1 (by decide)
  have hr11 : oldestRoleOf dbBoot 1 = some role11 := by decide
  have : r = role11 := by
    rw [hr] at hr11
    exact Option.some.inj hr11
  rw [this] at hcall
  exact hcall inpAcme 9 9

/-! ### C3 — the store constraint on user_roles -/

/-- C3 counterexample: the store accepts a second home role row for the
same principal in a different company — the `UNIQUE (user_id, company_id)`
constraint is on the pair, not on the user id alone. -/
theorem home_role_unique_counterexample :
    insert_user_role [role11] role12 = Except.ok [role11, role12] ∧
    role11.user_id = role12.user_id ∧
    role11.company_id ≠ role12.company_id ∧
    user_roles_unique_ok [role11, role12] := by
  refine ⟨rfl, by decide, by decide, by decide⟩

/-- C3 amended: the hard constraint the store enforces on `user_roles` is
uniqueness of the `(user_id, company_id)` pair — an insert is rejected
exactly when a row with the same pair exists, and accepted inserts
preserve pair-uniqueness. One home role per principal is guaranteed only
by the application-level check inside bootstrap. -/
theorem home_role_unique_amended (rows : List UserRoleRow) (r : UserRoleRow) :
    (insert_user_role rows r = Except.error SqlError.uniqueViolation ↔
      ∃ x ∈ rows, x.user_id = r.user_id ∧ x.company_id = r.company_id) ∧
    (user_roles_unique_ok rows →
      ∀ rows', insert_user_role rows r = Except.ok rows' →
        user_roles_unique_ok rows') := by
  constructor
  · unfold insert_user_role
    split_ifs with hc
    · simp only [List.any_eq_true, Bool.and_eq_true, beq_iff_eq] at hc
      simpa using hc
    · simp only [List.any_eq_true, Bool.and_eq_true, beq_iff_eq] at hc
      constructor
      · intro h; cases h
      · intro h; exact absurd h hc
  · intro hok rows' hins
    unfold insert_user_role at hins
    split_ifs at hins with hc
    injection hins with h2
    subst h2
    unfold user_roles_unique_ok at hok ⊢
    rw [List.map_append, List.nodup_append]
    refine ⟨hok, List.nodup_singleton _, ?_⟩
    intro a ha hb
    simp only [List.map_cons, List.map_nil, List.mem_singleton] at hb
    simp only [List.mem_map] at ha
    obtain ⟨x, hx, hkey⟩ := ha
    simp only [List.any_eq_true, Bool.and_eq_true, beq_iff_eq] at hc
    apply hc
    have hxy : roleKey x = roleKey r := hb ▸ hkey
    exact ⟨x, hx, congrArg Prod.fst hxy, congrArg Prod.snd hxy⟩

/-! ### C4 — constraint violations inside bootstrap propagate -/

/-- C4 counterexample: run against a store in which the home role
(user 1, company 5) was already committed, the write phase of
`bootstrap_user_company` has its role insert rejected, and — having no
EXCEPTION handler — returns the unique-violation error instead of the
idempotent success `Except.ok (dbRace, 5)` the claim requires. -/
theorem bootstrap_catch_counterexample :
    bootstrap_writes dbRace 1 inpAcme 5 1 = Except.error SqlError.uniqueViolation ∧
    bootstrap_writes dbRace 1 inpAcme 5 1 ≠ Except.ok (dbRace, 5) := by
  constructor
  · rfl
  · intro h
    rw [show bootstrap_writes dbRace 1 inpAcme 5 1 =
        Except.error SqlError.uniqueViolation from rfl] at h
    exact Except.noConfusion h

/-- C4 amended: `bootstrap_user_company` declares no exception handler;
whenever the store rejects its home-role insert as a duplicate, the write
phase propagates the constraint violation to the caller as an error (the
transaction rolls back), and idempotent success is produced only by the
pre-insert role check. -/
theorem bootstrap_error_propagates (db : DB) (uid : Nat) (inp : BootstrapInput)
    (cid now : Nat)
    (hdup : db.user_roles.any
      (fun x => x.user_id == uid && x.company_id == cid) = true) :
    bootstrap_writes db uid inp cid now = Except.error SqlError.uniqueViolation := by
  unfold bootstrap_writes insert_user_role
  simp only [hdup]
  rfl

/-- Witness for C4's amended statement. -/
theorem bootstrap_error_propagates_witness :
    dbRace.user_roles.any (fun x => x.user_id == 1 && x.company_id == 5) = true ∧
    bootstrap_writes dbRace 1 inpAcme 5 1 = Except.error SqlError.uniqueViolation :=
  ⟨by decide, bootstrap_error_propagates dbRace 1 inpAcme 5 1 (by decide)⟩

/-! ### C8 — Credential Vault round trip -/

/-- C8: for every non-empty secret, decrypting with the owning principal
recovers the secret; decrypting the same ciphertext as any other
principal yields NULL; and a ciphertext not bearing the principal's
derived key (corruption of the key-binding) also yields NULL — the
exception handler turns every decryption failure into NULL rather than an
error. -/
theorem credential_vault_round_trip (s : List Nat) (p q : Nat) (hs : s ≠ []) :
    decrypt_api_credential (encrypt_api_credential (some s) p) p = some s ∧
    (q ≠ p → decrypt_api_credential (encrypt_api_credential (some s) p) q = none) ∧
    (∀ k rest, k ≠ deriveKey p →
      decrypt_api_credential (some (k :: rest)) p = none) := by
  cases s with
  | nil => exact absurd rfl hs
  | cons a l =>
    refine ⟨?_, ?_, ?_⟩
    · simp [encrypt_api_credential, decrypt_api_credential, pgEncrypt, pgDecrypt]
    · intro hq
      simp [encrypt_api_credential, decrypt_api_credential, pgEncrypt, pgDecrypt,
        deriveKey]
      intro h
      exact absurd h.symm hq
    · intro k rest hk
      simp [decrypt_api_credential, pgDecrypt]
      intro h
      exact absurd h hk

/-- Witness for C8 at a concrete secret and principal pair. -/
theorem credential_vault_round_trip_witness :
    ([3, 7] : List Nat) ≠ [] ∧
    decrypt_api_credential (encrypt_api_credential (some [3, 7]) 1) 1 = some [3, 7] ∧
    decrypt_api_credential (encrypt_api_credential (some [3, 7]) 1) 2 = none :=
  ⟨by decide, (credential_vault_round_trip [3, 7] 1 2 (by decide)).1,
    (credential_vault_round_trip [3, 7] 1 2 (by decide)).2.1 (by decide)⟩

/-! ### C5 — last-admin protection -/

/-- C5 counterexample: company 1 has exactly one admin role (user 1), and
that admin demoting their own assignment through `handleUpdateUserRole`
succeeds — no self-target or last-admin guard exists on the update path —
leaving a company that still has a member (user 2) but zero admins. -/
theorem last_admin_counterexample :
    admin_count dbSolo 1 = 1 ∧
    admin_count (handleUpdateUserRole dbSolo 1 1 AppRole.leitura) 1 = 0 ∧
    is_company_member (handleUpdateUserRole dbSolo 1 1 AppRole.leitura) 2 1 = true := by
  refine ⟨by decide, by decide, by decide⟩

/-- C5 amended: the only self-protection in the code is the client-side
guard of `handleRemoveUser`, which leaves the store unchanged whenever an
admin targets their own assignment for deletion; demotion
(`handleUpdateUserRole`) and the store-level policies carry no self or
last-admin rule, so a sole admin can demote themself and orphan the
company. -/
theorem last_admin_amended (db : DB) (caller : Nat) :
    handleRemoveUser db caller caller = db := by
  unfold handleRemoveUser
  cases h : callerRole db caller with
  | none => rfl
  | some cr =>
    by_cases hadm : cr.role == AppRole.admin
    · simp [hadm]
    · simp [hadm]

/-! ### C6 — subscription gating -/

/-- C6 counterexample: with company 1 suspended, its admin (a member) can
still write category rows — the "Company members can manage categories"
policy has no subscription conjunct — so not every previously-Allowed
write capability becomes Deny. -/
theorem subscription_gate_counterexample :
    is_subscription_active dbGate 1 = false ∧
    is_company_member dbGate 1 1 = true ∧
    categories_manage_policy dbGate 1 catGate = true ∧
    subscriptions_select_policy dbGate 1 subGate = true := by
  refine ⟨by decide, by decide, by decide, by decide⟩

/-- C6 amended: once a company's subscription is not active, the
company-scoped clause of every transactions policy evaluates to false, so
each policy collapses to the legacy per-user owner clause (which is not
subscription-gated); reading the subscription row itself stays governed
by membership alone; and category management is independent of the
subscriptions table entirely. -/
theorem subscription_gate_amended (db : DB) (uid : Nat) (t : TransactionRow)
    (s : SubscriptionRow) (cat : CategoryRow)
    (h : is_subscription_active_opt db t.company_id = false) :
    transactions_select_policy db uid t = transactions_owner_policy uid t ∧
    transactions_insert_policy db uid t = transactions_owner_policy uid t ∧
    transactions_update_policy db uid t = transactions_owner_policy uid t ∧
    transactions_delete_policy db uid t = transactions_owner_policy uid t ∧
    subscriptions_select_policy db uid s = is_company_member db uid s.company_id ∧
    (∀ subs : List SubscriptionRow,
      categories_manage_policy { db with subscriptions := subs } uid cat =
        categories_manage_policy db uid cat) := by
  refine ⟨?_, ?_, ?_, ?_, rfl, fun subs => rfl⟩
  · simp [transactions_select_policy, transactions_company_read, h]
  · simp [transactions_insert_policy, h]
  · simp [transactions_update_policy, h]
  · simp [transactions_delete_policy, h]

/-- Witness for C6's amended statement on the suspended company. -/
theorem subscription_gate_amended_witness :
    is_subscription_active_opt dbGate txGate.company_id = false ∧
    transactions_insert_policy dbGate 1 txGate = transactions_owner_policy 1 txGate :=
  ⟨by decide,
    (subscription_gate_amended dbGate 1 txGate subGate catGate (by decide)).2.1⟩

/-! ### C9 — audit atomicity -/

/-- C9 counterexample: the Spreadsheet add-row mutation commits its
transaction insert and writes no audit record, producing a reachable
state with a committed privileged write and an empty audit_log. -/
theorem audit_atomicity_counterexample :
    (handleAddRow dbEmpty 1 10).transactions ≠ [] ∧
    (handleAddRow dbEmpty 1 10).audit_log = [] := by
  refine ⟨by decide, by decide⟩

/-- C9 amended: audit logging is decoupled and best-effort: `logAction`
catches every failure, and at HEAD — where no INSERT policy on audit_log
remains — it never writes a row at all; the transaction mutation paths
call no audit write, so a privileged mutation commits independently of
any audit record. -/
theorem audit_atomicity_amended :
    (∀ db userOpt companyOpt auditId act tbl recordId,
      logAction db userOpt companyOpt auditId act tbl recordId = db) ∧
    (∀ db uid newId, (handleAddRow db uid newId).audit_log = db.audit_log) := by
  constructor
  · intro db userOpt companyOpt auditId act tbl recordId
    unfold logAction
    cases userOpt with
    | none => rfl
    | some uid =>
      cases companyOpt with
      | none => rfl
      | some cid => simp [audit_insert_policy]
  · intro db uid newId
    unfold handleAddRow
    dsimp only
    split <;> rfl

/-! ### C10 — audit immutability and gated query -/

/-- C10 counterexample: an admin deleting their own company fires the
declared `ON DELETE CASCADE` on audit_log, destroying an already-recorded
audit row — an operation in a later state that deletes an AuditRecord. -/
theorem audit_immutable_counterexample :
    dbLedger.audit_log ≠ [] ∧
    (rls_delete_company dbLedger 1 1).audit_log = [] := by
  refine ⟨by decide, by decide⟩

/-- C10 amended: audit rows can never be targeted directly — with no
UPDATE or DELETE policy on audit_log, every RLS-gated update or delete by
any principal, admins included, leaves the table unchanged — and a
principal without the admin role reads no audit rows at all; the only way
an audit record disappears is the cascade of a whole-company deletion by
its admin. -/
theorem audit_immutable_amended (db : DB) (uid : Nat) (pred : AuditRow → Bool)
    (f : AuditRow → AuditRow) :
    rls_update_audit db uid pred f = db ∧
    rls_delete_audit db uid pred = db ∧
    (has_role db uid AppRole.admin = false → query_audit db uid = []) := by
  refine ⟨?_, ?_, fun h => ?_⟩
  · simp [rls_update_audit, audit_update_policy]
  · simp [rls_delete_audit, audit_delete_policy]
  · simp [query_audit, audit_select_policy, h]

/-- Witness for C10's amended statement: the admin user 1 cannot change
the ledger, and user 2, no admin, sees no audit rows of `dbLedger`. -/
theorem audit_immutable_amended_witness :
    rls_delete_audit dbLedger 1 (fun _ => true) = dbLedger ∧
    has_role dbLedger 2 AppRole.admin = false ∧
    query_audit dbLedger 2 = [] :=
  ⟨(audit_immutable_amended dbLedger 1 (fun _ => true) id).2.1, by decide,
    (audit_immutable_amended dbLedger 2 (fun _ => true) id).2.2 (by decide)⟩

/-! ### C7 — role-based field masking -/

/-- C7 counterexample: user 1, whose only role is leitura in company 1,
reads the base transactions table — whose SELECT policy admits any member
of an active company, with no role restriction — and observes the actual
profit, product_cost and tax_amount values. -/
theorem field_masking_counterexample :
    has_role dbMask 1 AppRole.admin = false ∧
    has_role dbMask 1 AppRole.financeiro = false ∧
    select_transactions dbMask 1 =
      [{ id := 10, user_id := 2, company_id := some 1, description := "v",
         amount := 50, profit := some 100, product_cost := some 30,
         tax_amount := some 5 }] := by
  refine ⟨by decide, by decide, by decide⟩

/-- C7 amended: masking holds only on the `transactions_safe` view: a
principal holding neither the admin nor the financeiro role sees NULL in
all three sensitive fields of every row the view returns, and a principal
holding one of those roles sees the stored rows unchanged; the base-table
read path stays open to any member of an active company regardless of
role and returns unmasked rows. -/
theorem field_masking_amended (db : DB) (uid : Nat) :
    ((has_role db uid AppRole.admin || has_role db uid AppRole.financeiro) = false →
      ∀ s ∈ transactions_safe db uid,
        s.profit = none ∧ s.product_cost = none ∧ s.tax_amount = none) ∧
    ((has_role db uid AppRole.admin || has_role db uid AppRole.financeiro) = true →
      transactions_safe db uid = select_transactions db uid) := by
  constructor
  · intro h s hs
    unfold transactions_safe at hs
    obtain ⟨t, ht, rfl⟩ := List.mem_map.mp hs
    unfold mask_transaction
    rw [h]
    simp
  · intro h
    unfold transactions_safe mask_transaction
    simp [h]

/-- Witness for C7's amended statement: user 2 holds the financeiro role,
and the view coincides with the unmasked base read. -/
theorem field_masking_amended_witness :
    (has_role dbMask 2 AppRole.admin || has_role dbMask 2 AppRole.financeiro) = true ∧
    transactions_safe dbMask 2 = select_transactions dbMask 2 :=
  ⟨by decide, (field_masking_amended dbMask 2).2 (by decide)⟩

/-! ### C1 — tenant isolation -/

lemma any_user_rows (db : DB) (p : Nat)
    (hne : db.user_roles.filter (fun r => r.user_id == p) ≠ []) :
    db.user_roles.any (fun r => r.user_id == p) = true := by
  cases hfe : db.user_roles.filter (fun r => r.user_id == p) with
  | nil => exact absurd hfe hne
  | cons r rest =>
    have hr : r ∈ db.user_roles.filter (fun r => r.user_id == p) := by
      rw [hfe]; exact List.mem_cons_self _ _
    obtain ⟨hmem, hpred⟩ := List.mem_filter.mp hr
    exact List.any_eq_true.mpr ⟨r, hmem, hpred⟩

lemma gucid_of_only (db : DB) (p A : Nat)
    (hne : db.user_roles.filter (fun r => r.user_id == p) ≠ [])
    (hOnly : ∀ r ∈ db.user_roles, r.user_id = p → r.company_id = A) :
    get_user_company_id db p = some A := by
  unfold get_user_company_id
  cases hfe : db.user_roles.filter (fun r => r.user_id == p) with
  | nil => exact absurd hfe hne
  | cons r rest =>
    have hr : r ∈ db.user_roles.filter (fun r => r.user_id == p) := by
      rw [hfe]; exact List.mem_cons_self _ _
    obtain ⟨hmem, hpred⟩ := List.mem_filter.mp hr
    simp only [List.head?_cons, Option.map_some']
    rw [hOnly r hmem (by simpa using hpred)]

lemma member_of_only_false (db : DB) (p A B : Nat)
    (hOnly : ∀ r ∈ db.user_roles, r.user_id = p → r.company_id = A)
    (hBA : B ≠ A) : is_company_member db p B = false := by
  rw [is_company_member, List.any_eq_false]
  intro x hx hcontra
  simp only [Bool.and_eq_true, beq_iff_eq] at hcontra
  exact hBA (hcontra.2 ▸ hOnly x hx hcontra.1)

lemma admin_of_only_false (db : DB) (p A B : Nat)
    (hOnly : ∀ r ∈ db.user_roles, r.user_id = p → r.company_id = A)
    (hBA : B ≠ A) : is_company_admin db p B = false := by
  rw [is_company_admin, List.any_eq_false]
  intro x hx hcontra
  simp only [Bool.and_eq_true, beq_iff_eq] at hcontra
  exact hBA (hcontra.1.2 ▸ hOnly x hx hcontra.1.1)

/-- C1 counterexample: user 1 holds a role only in company 1, yet the RLS
decision for inserting a transaction row scoped to company 2 — and for
writing a category row scoped to company 2 — evaluates to Allow through
the legacy per-user policies, so not every write capability scoped to the
foreign company is denied. -/
theorem tenant_isolation_counterexample :
    dbIso.user_roles.all (fun r => !(r.user_id == 1) || r.company_id == 1) = true ∧
    txIntoB.company_id = some 2 ∧
    catIntoB.company_id = some 2 ∧
    transactions_insert_policy dbIso 1 txIntoB = true ∧
    categories_manage_policy dbIso 1 catIntoB = true := by
  refine ⟨by decide, by decide, by decide, by decide, by decide⟩

/-- C1 amended: a principal with roles only in company A is denied every
capability scoped to a distinct company B — reading, updating, deleting
or inserting B's companies, user_roles, subscriptions and audit rows, and
reading or writing any B-scoped transaction or category row not tagged
with the principal's own user id. The sole exceptions are the legacy
per-user transactions/categories policies, which accept rows tagged with
the principal's own user id even when their `company_id` is B. -/
theorem tenant_isolation_amended (db : DB) (p A B : Nat)
    (hne : db.user_roles.filter (fun r => r.user_id == p) ≠ [])
    (hOnly : ∀ r ∈ db.user_roles, r.user_id = p → r.company_id = A)
    (hBA : B ≠ A) :
    companies_insert_policy db p = false ∧
    (∀ c : CompanyRow, c.id = B →
      companies_select_policy db p c = false ∧
      companies_update_policy db p c = false ∧
      companies_delete_policy db p c = false) ∧
    (∀ r ∈ db.user_roles, r.company_id = B →
      user_roles_select_policy db p r = false) ∧
    (∀ r : UserRoleRow, r.company_id = B →
      user_roles_write_policy db p r = false) ∧
    (∀ s : SubscriptionRow, s.company_id = B →
      subscriptions_select_policy db p s = false ∧
      subscriptions_insert_policy db p s = false ∧
      subscriptions_update_policy db p s = false ∧
      subscriptions_delete_policy db p s = false) ∧
    (∀ a : AuditRow, a.company_id = B →
      audit_select_policy db p a = false ∧
      audit_insert_policy db p a = false ∧
      audit_update_policy db p a = false ∧
      audit_delete_policy db p a = false) ∧
    (∀ t : TransactionRow, t.company_id = some B → t.user_id ≠ p →
      transactions_select_policy db p t = false ∧
      transactions_insert_policy db p t = false ∧
      transactions_update_policy db p t = false ∧
      transactions_delete_policy db p t = false) ∧
    (∀ c : CategoryRow, c.company_id = some B → c.user_id ≠ p →
      categories_select_policy db p c = false ∧
      categories_manage_policy db p c = false) := by
  have hg : get_user_company_id db p = some A := gucid_of_only db p A hne hOnly
  have hm : is_company_member db p B = false := member_of_only_false db p A B hOnly hBA
  have ha : is_company_admin db p B = false := admin_of_only_false db p A B hOnly hBA
  refine ⟨?_, ?_, ?_, ?_, ?_, ?_, ?_, ?_⟩
  · simp [companies_insert_policy, any_user_rows db p hne]
  · intro c hc
    refine ⟨?_, ?_, ?_⟩
    · rw [companies_select_policy, List.any_eq_false]
      intro x hx hcontra
      simp only [Bool.and_eq_true, beq_iff_eq, hc] at hcontra
      exact hBA (hcontra.1 ▸ hOnly x hx hcontra.2)
    · rw [companies_update_policy, List.any_eq_false]
      intro x hx hcontra
      simp only [Bool.and_eq_true, beq_iff_eq, hc] at hcontra
      exact hBA (hcontra.1.1 ▸ hOnly x hx hcontra.1.2)
    · rw [companies_delete_policy, List.any_eq_false]
      intro x hx hcontra
      simp only [Bool.and_eq_true, beq_iff_eq, hc] at hcontra
      exact hBA (hcontra.1.1 ▸ hOnly x hx hcontra.1.2)
  · intro r hr hrB
    have hru : (r.user_id == p) = false := by
      refine beq_eq_false_iff_ne.mpr (fun hru => hBA ?_)
      exact hrB ▸ hOnly r hr hru
    rw [user_roles_select_policy, hrB, hm, ha, hru]
    rfl
  · intro r hrB
    rw [user_roles_write_policy, hrB]
    exact ha
  · intro s hsB
    refine ⟨?_, ?_, ?_, ?_⟩
    · rw [subscriptions_select_policy, hsB]; exact hm
    · rw [subscriptions_insert_policy, List.any_eq_false]
      intro x hx hcontra
      simp only [Bool.and_eq_true, beq_iff_eq, hsB] at hcontra
      exact hBA (hcontra.1 ▸ hOnly x hx hcontra.2)
    · rw [subscriptions_update_policy, hsB]; exact ha
    · rw [subscriptions_delete_policy, hsB]; exact ha
  · intro a haB
    refine ⟨?_, rfl, rfl, rfl⟩
    rw [audit_select_policy, haB, hm]
    rfl
  · intro t htB htu
    have hown : transactions_owner_policy p t = false := by
      rw [transactions_owner_policy]
      exact beq_eq_false_iff_ne.mpr htu
    have hopt : optEq t.company_id (get_user_company_id db p) = false := by
      rw [htB, hg]
      simpa [optEq] using hBA
    refine ⟨?_, ?_, ?_, ?_⟩
    · simp [transactions_select_policy, transactions_company_read, hown, hopt]
    · simp [transactions_insert_policy, hown, hopt]
    · simp [transactions_update_policy, hown, hopt]
    · simp [transactions_delete_policy, hown, hopt]
  · intro c hcB hcu
    have hown : categories_owner_policy p c = false := by
      rw [categories_owner_policy]
      exact beq_eq_false_iff_ne.mpr hcu
    have hopt : optEq c.company_id (get_user_company_id db p) = false := by
      rw [hcB, hg]
      simpa [optEq] using hBA
    constructor
    · simp [categories_select_policy, hown, hopt]
    · simp [categories_manage_policy, hown, hopt]

/-- Witness for C1's amended statement on the two-tenant store. -/
theorem tenant_isolation_amended_witness :
    (dbIso.user_roles.filter (fun r => r.user_id == 1) ≠ []) ∧
    companies_insert_policy dbIso 1 = false :=
  ⟨by decide,
    (tenant_isolation_amended dbIso 1 1 2 (by decide) (by decide) (by decide)).1⟩

end ShFin
